import Mathlib

/-!
# Verification of the `clouds` server core (`lib/server.js`)

A shallow embedding of the single-file server component of the
`node-cloud` repository.  Pure pieces of the JavaScript source become
Lean functions; the broker commands, event emissions and handler
invocations that a code path performs become an explicit list of
`Effect`s, in the order the source issues them.  Fallible paths return
`Except`.  The two helper modules `lib/define.js` and `lib/utils.js`
are not part of the source tree; the few constants and envelope
constructors taken from them are modelled from the specification and
marked as such in their doc comments.
-/

namespace NodeCloud

/-- Arguments and payloads carried by envelopes.  The JavaScript values
are opaque to the server logic, which only moves them around, so they
are modelled as strings. -/
abbrev Arg := String

/-- The wire envelope (spec §6): `{ type, sender, id, name, args, error }`.
`error` is `none` for the JavaScript `null`/absent case; `id` and `name`
are the empty string when absent. -/
structure Envelope where
  type : String
  sender : String
  id : String
  name : String
  args : List Arg
  error : Option String
deriving DecidableEq

/-- An observable action performed by a server code path:
a `PUBLISH channel payload` broker command, a `SETEX key ttl value`
broker command (the TTL is `Option Int`, `none` standing for the
JavaScript `NaN`), a local `emit(event, ...)` on the node's event
emitter, or the invocation of a registered service handler. -/
inductive Effect where
  | publish (channel : String) (msg : Envelope)
  | setex (k : String) (ttl : Option Int) (value : Int)
  | emitEvent (event : String) (sender : String) (args : List Arg)
  | invoke (serviceName : String) (args : List Arg)
deriving DecidableEq

/-- A registered service handler.  The JavaScript handler receives the
call's `args` plus a completion callback `function (err, ...results)`;
following the callback contract of spec §9, it is modelled as a
function from the arguments to the `(err, results)` pair it completes
with. -/
abbrev Handler := List Arg → Option String × List Arg

/-- The per-instance state fixed at construction that the dispatch and
heartbeat paths read: `pfx` models `this._prefix`, `id` models
`this.id`, `heartbeat` models `this._heartbeat` (seconds), and
`services` models the `this._services` name-to-handler map
(`none` = no handler registered under that name). -/
structure ServerCfg where
  pfx : String
  id : String
  heartbeat : Int
  services : String → Option Handler

/-- JavaScript `Array.prototype.join(':')`. -/
def joinColon : List String → String
  | [] => ""
  | [x] => x
  | x :: xs => x ++ ":" ++ joinColon xs

/-- `CloudsServer.prototype._key` (server.js 47-51): joins the segments
with `:`, prepending `this._prefix` when it is truthy (a non-empty
string). -/
def key (pfx : String) (segments : List String) : String :=
  joinColon (if pfx = "" then segments else pfx :: segments)

/-- Modelled from the spec: `utils.pocketResultMessage` (`lib/utils.js`
is not under the source tree).  Spec §4.4: builds a `result`-type
envelope with `id = sourceEnvelope.id`, `sender = this node's id`, the
given `error`, and `args = results`; an omitted results list becomes
the empty list (spec §8 scenario: `args: []` on the error path). -/
def pocketResultMessage (senderId : String) (msgId : String)
    (err : Option String) (args : Option (List Arg)) : Envelope :=
  { type := "result", sender := senderId, id := msgId, name := ""
    args := args.getD [], error := err }

/-- Modelled from the spec: `utils.pocketSendMessage` (`lib/utils.js`
is not under the source tree).  Spec §4.4: a `message`-type envelope
with `sender = this node's id` and `args = [payload]`; `message`
envelopes carry no correlation id and no service name. -/
def pocketSendMessage (senderId : String) (message : Arg) : Envelope :=
  { type := "message", sender := senderId, id := "", name := ""
    args := [message], error := none }

/-- `CloudsServer.prototype._responseResult` (server.js 164-171):
publishes the result envelope built by `pocketResultMessage` to the
sender's listen channel `[prefix:]L:<sender>`. -/
def responseResult (cfg : ServerCfg) (sourceMsg : Envelope)
    (err : Option String) (args : Option (List Arg)) : List Effect :=
  [Effect.publish (key cfg.pfx ["L", sourceMsg.sender])
    (pocketResultMessage cfg.id sourceMsg.id err args)]

/-- `CloudsServer.prototype._handleCallService` (server.js 148-161):
if no handler is registered under `msg.name`, responds immediately
with the error `service handler not found`; otherwise invokes the
handler once on `msg.args` and responds with the `(err, results)` the
handler's completion callback receives. -/
def handleCallService (cfg : ServerCfg) (msg : Envelope) : List Effect :=
  match cfg.services msg.name with
  | none => responseResult cfg msg (some "service handler not found") none
  | some fn =>
    let r := fn msg.args
    Effect.invoke msg.name msg.args :: responseResult cfg msg r.1 (some r.2)

/-- `CloudsServer.prototype._handleSendMessage` (server.js 174-177):
emits a local `message` event carrying `(sender, args)`. -/
def handleSendMessage (msg : Envelope) : List Effect :=
  [Effect.emitEvent "message" msg.sender msg.args]

/-- `CloudsServer.prototype._handleMessage` (server.js 135-145):
dispatches on `msg.type` — `call`, `message`, else an
`unknown message type` error result back to the sender. -/
def handleMessage (cfg : ServerCfg) (msg : Envelope) : List Effect :=
  if msg.type = "call" then handleCallService cfg msg
  else if msg.type = "message" then handleSendMessage msg
  else responseResult cfg msg (some "unknown message type") none

/-- This node's own listen channel `[prefix:]L:<id>` (server.js 66). -/
def listenChannel (cfg : ServerCfg) : String := key cfg.pfx ["L", cfg.id]

/-- The `message` listener wired by `_listen` (server.js 76-85): a raw
message arriving on a channel other than this node's own listen
channel is dropped silently (only a debug line, no effect); otherwise
it is decoded and dispatched by `_handleMessage`. -/
def onRawMessage (cfg : ServerCfg) (channel : String) (msg : Envelope) : List Effect :=
  if channel ≠ listenChannel cfg then [] else handleMessage cfg msg

/-- The `subscribe` listener wired by `_listen` (server.js 70-73): when
the broker acknowledges a subscription it runs `me.emit('listen')` —
the event emitted is named `listen`. -/
def onSubscribe (channel : String) (count : Nat) : List Effect :=
  [Effect.emitEvent "listen" "" []]

/-- `CloudsServer.prototype._resetServiceScore` (server.js 105-110):
`SETEX [prefix:]S:<name>:<id>` with TTL `this._heartbeat * 2` and
value `0`. -/
def resetServiceScore (cfg : ServerCfg) (name : String) : List Effect :=
  [Effect.setex (key cfg.pfx ["S", name, cfg.id]) (some (cfg.heartbeat * 2)) 0]

/-- `CloudsServer.prototype._keepServiceScore` (server.js 113-123).
`getErr` and `ret` are the outcome of the `GET` on the heartbeat key
(`ret = none` models a nil / non-numeric reply, under which the
JavaScript guard `ret > 0` is false).  When `err || !(ret > 0)` the
source falls back to `_resetServiceScore`.  Otherwise the source runs
`me._cp.setex(key, this._heartbeat * 2, ret, this._callback(callback))`
inside the `GET` callback, where `this` is NOT the server instance
(the function uses `var me = this` for that): `this._callback` is
`undefined`, and evaluating the argument `this._callback(callback)`
throws a TypeError before `setex` is ever issued, so the refresh path
performs no broker command and raises. -/
def keepServiceScore (cfg : ServerCfg) (name : String)
    (getErr : Bool) (ret : Option Int) : Except String (List Effect) :=
  if getErr = true ∨ ¬ 0 < ret.getD 0 then
    Except.ok (resetServiceScore cfg name)
  else
    Except.error "TypeError: this._callback is not a function"

/-- `CloudsServer.prototype._sendMessage` (server.js 193-198):
publishes the encoded envelope to `[prefix:]L:<receiver>`. -/
def sendMessage (cfg : ServerCfg) (receiver : String) (msg : Envelope) : List Effect :=
  [Effect.publish (key cfg.pfx ["L", receiver]) msg]

/-- `CloudsServer.prototype.send` (server.js 186-191): packs the
payload with `pocketSendMessage` and hands it to `_sendMessage`. -/
def send (cfg : ServerCfg) (receiver : String) (message : Arg) : List Effect :=
  sendMessage cfg receiver (pocketSendMessage cfg.id message)

/-- Modelled from the spec: `define.heartbeat` (`lib/define.js` is not
under the source tree).  Spec §6: the default heartbeat interval is a
configuration constant; it must be strictly positive for the TTL and
timer to make sense.  The spec fixes no numeric value; `2` seconds is
used as the representative constant. -/
def defineHeartbeat : Int := 2

/-- Modelled from the spec: `define.redisPrefix` (`lib/define.js` is
not under the source tree).  Spec §6: the default key prefix is a
configuration constant; `clouds` is used as the representative
non-empty constant. -/
def defineRedisPrefix : String := "clouds"

/-- The heartbeat normalisation at construction (server.js 20):
`if (!(options.heartbeat > 0)) options.heartbeat = define.heartbeat`.
An absent or non-numeric option is `none` (in JavaScript,
`undefined > 0` and `NaN > 0` are both false), and a zero or negative
number also fails the guard, so all of them are replaced by the
default. -/
def normalizeHeartbeat (hb : Option Int) : Int :=
  match hb with
  | some v => if 0 < v then v else defineHeartbeat
  | none => defineHeartbeat

/-- The constructor `CloudsServer` (server.js 18-42) restricted to the
pure configuration it fixes: the prefix falls back to the default when
the option is absent or empty (`ns('redis.prefix') || define.redisPrefix`,
line 28), and the heartbeat is normalised FIRST (line 20), before the
options namespace is created (line 23), so `this._heartbeat` (line
27) and the timer period `ns('heartbeat') * 1000` milliseconds (line
41) both read the normalised value. -/
def mkServer (optPfx : Option String) (optHeartbeat : Option Int)
    (id : String) (services : String → Option Handler) : ServerCfg :=
  { pfx := match optPfx with
      | some p => if p = "" then defineRedisPrefix else p
      | none => defineRedisPrefix
    id := id
    heartbeat := normalizeHeartbeat optHeartbeat
    services := services }

/-- The `PUBLISH` commands in an effect list, in order. -/
def publishes (es : List Effect) : List (String × Envelope) :=
  es.filterMap fun e =>
    match e with
    | Effect.publish c m => some (c, m)
    | _ => none

/-- The handler invocations in an effect list, in order. -/
def invokes (es : List Effect) : List (String × List Arg) :=
  es.filterMap fun e =>
    match e with
    | Effect.invoke n a => some (n, a)
    | _ => none

/-- Whether an effect list emits a local event with the given name. -/
def emitsEvent (n : String) (es : List Effect) : Bool :=
  es.any fun e =>
    match e with
    | Effect.emitEvent m _ _ => m == n
    | _ => false

/-- Helper for the `*` wildcard: `globStar m s` holds when some suffix
of `s` satisfies `m` — the star consumes an arbitrary prefix. -/
def globStar (m : List Char → Bool) : List Char → Bool
  | [] => m []
  | c :: cs => m (c :: cs) || globStar m cs

/-- The broker's `KEYS` glob matching, restricted to the metacharacter
the server actually generates: `*` matches any (possibly empty)
character sequence and every other pattern character matches itself
literally.  (The pattern `exit()` builds contains no `?` or `[...]`.) -/
def globMatchL : List Char → List Char → Bool
  | [], s => s.isEmpty
  | p :: ps, s =>
    if p = '*' then globStar (globMatchL ps) s
    else
      match s with
      | [] => false
      | c :: cs => p == c && globMatchL ps cs

/-- Glob matching on strings (pattern first). -/
def globMatch (pat s : String) : Bool := globMatchL pat.data s.data

/-- Whether `needle` occurs as a contiguous substring of `hay`. -/
def strContains (needle hay : String) : Bool :=
  globStar (fun s => needle.data.isPrefixOf s) hay.data

/-- The per-instance resources `exit()` is responsible for: the keys
currently stored in the broker, the heartbeat interval timer, and the
two redis connections (`_cs` subscribe side, `_cp` command side). -/
structure NodeRes where
  brokerKeys : List String
  timerActive : Bool
  csOpen : Bool
  cpOpen : Bool
deriving DecidableEq

/-- The wildcard pattern `exit()` scans with (server.js 210):
`me._key('*' + me.id + '*')`, i.e. `[prefix:]*<id>*`. -/
def exitPattern (cfg : ServerCfg) : String :=
  key cfg.pfx ["*" ++ cfg.id ++ "*"]

/-- `CloudsServer.prototype.exit` (server.js 205-241) as a transformer
on the node's resources.  `keysErr` / `delErr` inject the possible
failures of the `KEYS` and `DEL` broker commands.  A `KEYS` failure is
passed to the caller's callback and nothing else runs; when the match
list is non-empty a `DEL` failure likewise stops everything; otherwise
(`delKeysSuccess`) the interval timer is cleared and both connections
are ended.  (Success reports no error; the source's line 238
`me._callback(callback)` builds the callback without invoking it, so
nothing beyond "no error was surfaced" is modelled for success.) -/
def exitRun (cfg : ServerCfg) (st : NodeRes) :
    Option String → Option String → Option String × NodeRes
  | some e, _ => (some e, st)
  | none, delErr =>
    if 0 < (st.brokerKeys.filter fun k => globMatch (exitPattern cfg) k).length then
      match delErr with
      | some e => (some e, st)
      | none =>
        (none, { brokerKeys := st.brokerKeys.filter fun k => !globMatch (exitPattern cfg) k
                 timerActive := false, csOpen := false, cpOpen := false })
    else
      (none, { brokerKeys := st.brokerKeys
               timerActive := false, csOpen := false, cpOpen := false })

/-- A concrete server used by witnesses: prefix `clouds`, node id `A`,
heartbeat 2 s, one registered service `echo` whose handler completes
with `(null, args)`. -/
def cfgEx : ServerCfg :=
  { pfx := "clouds", id := "A", heartbeat := 2
    services := fun n => if n = "echo" then some (fun a => (none, a)) else none }

/-- A concrete inbound `call` envelope for the `echo` service, from
sender `B` with correlation id `1` (the spec §8 scenario). -/
def callMsg : Envelope :=
  { type := "call", sender := "B", id := "1", name := "echo"
    args := ["hi"], error := none }

/-- The same call aimed at the unregistered service `foo`. -/
def fooMsg : Envelope :=
  { type := "call", sender := "B", id := "1", name := "foo"
    args := ["hi"], error := none }

/-- An envelope with an unrecognised type. -/
def oddMsg : Envelope :=
  { type := "ping", sender := "B", id := "7", name := ""
    args := [], error := none }

/-- Concrete resources for the exit witnesses: one key of this node
(matching `clouds:*A*`) and one foreign key that does not match. -/
def stEx : NodeRes :=
  { brokerKeys := ["clouds:S:echo:A", "other:S:echo:A"]
    timerActive := true, csOpen := true, cpOpen := true }

/-- A server with prefix `a` and id `n1`, for the exit scope results. -/
def cfgN1 : ServerCfg :=
  { pfx := "a", id := "n1", heartbeat := 2, services := fun _ => none }

/-- Resources holding a single key that contains the id `n1` but lives
under the unrelated prefix `b`. -/
def stForeign : NodeRes :=
  { brokerKeys := ["b:S:x:n1"], timerActive := true, csOpen := true, cpOpen := true }

/-- Resources holding a single key built with `key` under the prefix
`a:b`, which is different from `cfgN1`'s prefix `a` but extends it. -/
def stNested : NodeRes :=
  { brokerKeys := ["a:b:S:x:n1"], timerActive := true, csOpen := true, cpOpen := true }

/-! ## Helper lemmas -/

theorem str_data_append (a b : String) : (a ++ b).data = a.data ++ b.data := by
  cases a; cases b; rfl

theorem globStar_decompose (m : List Char → Bool) (s : List Char)
    (h : globStar m s = true) : ∃ a b, s = a ++ b ∧ m b = true := by
  induction s with
  | nil => exact ⟨[], [], rfl, h⟩
  | cons c cs ih =>
    simp only [globStar, Bool.or_eq_true] at h
    rcases h with h1 | h2
    · exact ⟨[], c :: cs, rfl, h1⟩
    · obtain ⟨a, b, rfl, hm⟩ := ih h2
      exact ⟨c :: a, b, rfl, hm⟩

theorem globStar_intro (m : List Char → Bool) (a b : List Char) (h : m b = true) :
    globStar m (a ++ b) = true := by
  induction a with
  | nil =>
    cases b with
    | nil => simpa [globStar] using h
    | cons c cs => simp [globStar, h]
  | cons c cs ih => simp [globStar, ih]

theorem isPrefixOf_append (l t : List Char) : l.isPrefixOf (l ++ t) = true := by
  induction l with
  | nil => cases t <;> rfl
  | cons c cs ih => simp [List.isPrefixOf, ih]

theorem globMatchL_literal (lit : List Char) :
    '*' ∉ lit → ∀ (ps s : List Char),
      globMatchL (lit ++ ps) s = true → ∃ t, s = lit ++ t ∧ globMatchL ps t = true := by
  induction lit with
  | nil => exact fun _ ps s h => ⟨s, rfl, h⟩
  | cons c cs ih =>
    intro hstar ps s h
    have hc : c ≠ '*' := by
      intro hc
      exact hstar (hc ▸ List.mem_cons_self c cs)
    rw [List.cons_append] at h
    cases s with
    | nil => simp [globMatchL, if_neg hc] at h
    | cons d ds =>
      simp only [globMatchL, if_neg hc, Bool.and_eq_true, beq_iff_eq] at h
      obtain ⟨rfl, h2⟩ := h
      obtain ⟨t, rfl, hm⟩ := ih (fun hmem => hstar (List.mem_cons_of_mem _ hmem)) ps ds h2
      exact ⟨t, rfl, hm⟩

theorem exitPattern_data (cfg : ServerCfg) (hp : cfg.pfx ≠ "") :
    (exitPattern cfg).data = cfg.pfx.data ++ ':' :: '*' :: (cfg.id.data ++ ['*']) := by
  unfold exitPattern key
  rw [if_neg hp]
  show (joinColon [cfg.pfx, "*" ++ cfg.id ++ "*"]).data = _
  simp only [joinColon]
  simp [str_data_append, List.append_assoc]

theorem globMatch_exitPattern_decompose (cfg : ServerCfg) (k : String)
    (hp : cfg.pfx ≠ "") (hps : '*' ∉ cfg.pfx.data) (his : '*' ∉ cfg.id.data)
    (h : globMatch (exitPattern cfg) k = true) :
    ∃ a b, k.data = cfg.pfx.data ++ ':' :: (a ++ (cfg.id.data ++ b)) := by
  unfold globMatch at h
  rw [exitPattern_data cfg hp] at h
  have h1 : globMatchL ((cfg.pfx.data ++ [':']) ++ ('*' :: (cfg.id.data ++ ['*']))) k.data
      = true := by
    simpa [List.append_assoc] using h
  have hstar1 : '*' ∉ cfg.pfx.data ++ [':'] := by
    intro hmem
    rcases List.mem_append.mp hmem with hm | hm
    · exact hps hm
    · simp at hm
  obtain ⟨t, htk, ht⟩ := globMatchL_literal _ hstar1 _ _ h1
  have ht2 : globStar (globMatchL (cfg.id.data ++ ['*'])) t = true := by
    simpa [globMatchL] using ht
  obtain ⟨a, b, rfl, hb⟩ := globStar_decompose _ _ ht2
  obtain ⟨t2, rfl, _⟩ := globMatchL_literal _ his _ _ hb
  refine ⟨a, t2, ?_⟩
  simpa [List.append_assoc] using htk

theorem exitRun_keys_err (cfg : ServerCfg) (st : NodeRes) (e : String)
    (de : Option String) : exitRun cfg st (some e) de = (some e, st) := rfl

theorem exitRun_none_eq (cfg : ServerCfg) (st : NodeRes) (de : Option String) :
    exitRun cfg st none de =
      if 0 < (st.brokerKeys.filter fun k => globMatch (exitPattern cfg) k).length then
        match de with
        | some e => (some e, st)
        | none =>
          (none, { brokerKeys := st.brokerKeys.filter fun k => !globMatch (exitPattern cfg) k
                   timerActive := false, csOpen := false, cpOpen := false })
      else
        (none, { brokerKeys := st.brokerKeys
                 timerActive := false, csOpen := false, cpOpen := false }) := rfl

theorem exitRun_none_none (cfg : ServerCfg) (st : NodeRes) :
    exitRun cfg st none none =
      (none, { brokerKeys := st.brokerKeys.filter fun k => !globMatch (exitPattern cfg) k
               timerActive := false, csOpen := false, cpOpen := false }) := by
  rw [exitRun_none_eq]
  by_cases hl : 0 < (st.brokerKeys.filter fun k => globMatch (exitPattern cfg) k).length
  · rw [if_pos hl]
  · rw [if_neg hl]
    have h0 : (st.brokerKeys.filter fun k => globMatch (exitPattern cfg) k) = [] := by
      cases h : st.brokerKeys.filter fun k => globMatch (exitPattern cfg) k with
      | nil => rfl
      | cons a l => rw [h] at hl; simp at hl
    have hall : st.brokerKeys.filter (fun k => !globMatch (exitPattern cfg) k)
        = st.brokerKeys := by
      apply List.filter_eq_self.mpr
      intro a ha
      have hfa : globMatch (exitPattern cfg) a = false := by
        by_contra hga
        have hmem : a ∈ st.brokerKeys.filter fun k => globMatch (exitPattern cfg) k :=
          List.mem_filter.mpr
            ⟨ha, by revert hga; cases globMatch (exitPattern cfg) a <;> simp⟩
        rw [h0] at hmem
        simp at hmem
      simp [hfa]
    rw [hall]

/-! ## Claim theorems -/

/-- C1: every inbound `call` envelope makes the dispatcher publish
exactly one envelope, that envelope is a `result` carrying the call's
correlation id and goes to the sender's listen channel — whether the
handler exists, succeeds, or reports an error — and the handler is
invoked at most once per received `call` envelope. -/
theorem call_publishes_exactly_one_result (cfg : ServerCfg) (msg : Envelope)
    (h : msg.type = "call") :
    (publishes (handleMessage cfg msg)).length = 1 ∧
    (∀ p ∈ publishes (handleMessage cfg msg),
        p.1 = key cfg.pfx ["L", msg.sender] ∧ p.2.type = "result" ∧ p.2.id = msg.id) ∧
    (invokes (handleMessage cfg msg)).length ≤ 1 := by
  unfold handleMessage
  rw [if_pos h]
  unfold handleCallService
  cases hs : cfg.services msg.name with
  | none => simp [responseResult, publishes, invokes, pocketResultMessage]
  | some fn => simp [responseResult, publishes, invokes, pocketResultMessage]

/-- Witness for C1 at the spec §8 scenario: node `A` holds the `echo`
service, receives the call from `B` with correlation id `1`. -/
theorem call_publishes_exactly_one_result_witness :
    (publishes (handleMessage cfgEx callMsg)).length = 1 ∧
    (∀ p ∈ publishes (handleMessage cfgEx callMsg),
        p.1 = key cfgEx.pfx ["L", callMsg.sender] ∧
        p.2.type = "result" ∧ p.2.id = callMsg.id) ∧
    (invokes (handleMessage cfgEx callMsg)).length ≤ 1 :=
  call_publishes_exactly_one_result cfgEx callMsg rfl

/-- C2: at the failing input — the heartbeat key holds the valid
positive score 1 and `GET` succeeds — the refresh branch of
`_keepServiceScore` raises a TypeError (its `this`-bound reads do not
reach the server instance) instead of rewriting the score with TTL
`2 × heartbeat`; the fallback half of the claim does hold: an absent
key is recreated through `_resetServiceScore` with score 0. -/
theorem keep_service_score_positive_crashes :
    keepServiceScore cfgEx "echo" false (some 1) =
      Except.error "TypeError: this._callback is not a function" ∧
    keepServiceScore cfgEx "echo" false none =
      Except.ok (resetServiceScore cfgEx "echo") ∧
    resetServiceScore cfgEx "echo" =
      [Effect.setex "clouds:S:echo:A" (some 4) 0] := by
  refine ⟨?_, ?_, rfl⟩
  · rw [keepServiceScore, if_neg]
    simp
  · rw [keepServiceScore, if_pos]
    simp

/-- C3: a `call` envelope whose `name` has no registered handler
produces no handler invocation and exactly one published effect: the
`result` envelope with error `service handler not found` sent to the
sender's listen channel. -/
theorem unregistered_call_not_found (cfg : ServerCfg) (msg : Envelope)
    (h1 : msg.type = "call") (h2 : cfg.services msg.name = none) :
    invokes (handleMessage cfg msg) = [] ∧
    handleMessage cfg msg =
      [Effect.publish (key cfg.pfx ["L", msg.sender])
        (pocketResultMessage cfg.id msg.id (some "service handler not found") none)] := by
  unfold handleMessage
  rw [if_pos h1]
  unfold handleCallService
  rw [h2]
  exact ⟨rfl, rfl⟩

/-- Witness for C3: the call for the unregistered name `foo`. -/
theorem unregistered_call_not_found_witness :
    invokes (handleMessage cfgEx fooMsg) = [] ∧
    handleMessage cfgEx fooMsg =
      [Effect.publish (key cfgEx.pfx ["L", fooMsg.sender])
        (pocketResultMessage cfgEx.id fooMsg.id (some "service handler not found") none)] :=
  unregistered_call_not_found cfgEx fooMsg rfl rfl

/-- C4: an envelope whose type is neither `call` nor `message` produces
no handler invocation and exactly one published effect: the `result`
envelope with error `unknown message type` sent back to the sender's
listen channel. -/
theorem unknown_type_error_result (cfg : ServerCfg) (msg : Envelope)
    (h1 : msg.type ≠ "call") (h2 : msg.type ≠ "message") :
    invokes (handleMessage cfg msg) = [] ∧
    handleMessage cfg msg =
      [Effect.publish (key cfg.pfx ["L", msg.sender])
        (pocketResultMessage cfg.id msg.id (some "unknown message type") none)] := by
  unfold handleMessage
  rw [if_neg h1, if_neg h2]
  exact ⟨rfl, rfl⟩

/-- Witness for C4: an envelope of type `ping`. -/
theorem unknown_type_error_result_witness :
    invokes (handleMessage cfgEx oddMsg) = [] ∧
    handleMessage cfgEx oddMsg =
      [Effect.publish (key cfgEx.pfx ["L", oddMsg.sender])
        (pocketResultMessage cfgEx.id oddMsg.id (some "unknown message type") none)] :=
  unknown_type_error_result cfgEx oddMsg (by decide) (by decide)

/-- C6: `send(receiverId, payload)` publishes exactly one envelope, to
the receiver's listen channel `[prefix:]L:<receiverId>`, and that
envelope has type `message`, sender this node's id and args
`[payload]`. -/
theorem send_publishes_one_message (cfg : ServerCfg) (receiver payload : Arg) :
    send cfg receiver payload =
      [Effect.publish (key cfg.pfx ["L", receiver]) (pocketSendMessage cfg.id payload)] ∧
    (pocketSendMessage cfg.id payload).type = "message" ∧
    (pocketSendMessage cfg.id payload).sender = cfg.id ∧
    (pocketSendMessage cfg.id payload).args = [payload] :=
  ⟨rfl, rfl, rfl, rfl⟩

/-- C7 counterexample: on a subscription acknowledgement for this
node's listen channel, no event named `listening` is emitted. -/
theorem subscribe_ack_no_listening_event :
    emitsEvent "listening" (onSubscribe (listenChannel cfgEx) 1) = false := by
  decide

/-- C7 amended: on a subscription acknowledgement the node emits a
single local event, and its name is `listen` (not `listening`). -/
theorem subscribe_ack_emits_listen (channel : String) (count : Nat) :
    onSubscribe channel count = [Effect.emitEvent "listen" "" []] := rfl

/-- C8: a raw message arriving on any channel other than this node's
own listen channel produces no effect at all: nothing is dispatched,
no handler is invoked, no event is emitted, nothing is published. -/
theorem foreign_channel_dropped (cfg : ServerCfg) (channel : String) (msg : Envelope)
    (h : channel ≠ listenChannel cfg) :
    onRawMessage cfg channel msg = [] := by
  unfold onRawMessage
  rw [if_pos h]

/-- Witness for C8: a call addressed to channel `clouds:L:B` arriving
at node `A` (whose listen channel is `clouds:L:A`) is dropped. -/
theorem foreign_channel_dropped_witness :
    onRawMessage cfgEx "clouds:L:B" callMsg = [] :=
  foreign_channel_dropped cfgEx "clouds:L:B" callMsg (by decide)

/-- C5 counterexample: node with prefix `a` and id `n1`; the broker
holds the key `b:S:x:n1`, which contains the node's id but lives under
the prefix `b`.  `exit()` completes successfully (no error surfaced)
yet that key — a key containing the node's id — remains, because the
scan pattern `a:*n1*` only covers the node's own prefix. -/
theorem exit_leaves_foreign_prefix_key :
    (exitRun cfgN1 stForeign none none).1 = none ∧
    (exitRun cfgN1 stForeign none none).2.brokerKeys = ["b:S:x:n1"] ∧
    strContains "n1" "b:S:x:n1" = true := by
  refine ⟨rfl, ?_, by decide⟩
  decide

/-- C5 amended: `exit()` scans the broker for every key matching the
prefixed wildcard pattern `[prefix:]*<id>*` (not every key containing
the id), deletes the matches if any exist, then stops the heartbeat
timer and closes both connections.  A `KEYS` failure surfaces to the
caller and short-circuits everything (state untouched); when matches
exist, a `DEL` failure does the same; after successful completion no
key matching the pattern remains, the timer is stopped and both
connections are closed. -/
theorem exit_cleanup_spec (cfg : ServerCfg) (st : NodeRes) (e1 e2 : String)
    (de : Option String) :
    exitRun cfg st (some e1) de = (some e1, st) ∧
    (0 < (st.brokerKeys.filter fun k => globMatch (exitPattern cfg) k).length →
        exitRun cfg st none (some e2) = (some e2, st)) ∧
    (exitRun cfg st none none).1 = none ∧
    (exitRun cfg st none none).2.timerActive = false ∧
    (exitRun cfg st none none).2.csOpen = false ∧
    (exitRun cfg st none none).2.cpOpen = false ∧
    (∀ k ∈ (exitRun cfg st none none).2.brokerKeys,
        globMatch (exitPattern cfg) k = false) := by
  refine ⟨exitRun_keys_err cfg st e1 de, ?_, ?_, ?_, ?_, ?_, ?_⟩
  · intro hl
    rw [exitRun_none_eq, if_pos hl]
  · rw [exitRun_none_none]
  · rw [exitRun_none_none]
  · rw [exitRun_none_none]
  · rw [exitRun_none_none]
  · rw [exitRun_none_none]
    intro k hk
    simp only [List.mem_filter, Bool.not_eq_true'] at hk
    exact hk.2

/-- Witness for C5 (amended): node `A` with key `clouds:S:echo:A`
matching its pattern — a `DEL` failure is surfaced with the state
untouched, and the non-matching `other:S:echo:A` that this node's
successful exit leaves behind indeed fails the pattern. -/
theorem exit_cleanup_spec_witness :
    exitRun cfgEx stEx none (some "bam") = (some "bam", stEx) ∧
    globMatch (exitPattern cfgEx) "other:S:echo:A" = false :=
  ⟨(exit_cleanup_spec cfgEx stEx "e" "bam" none).2.1 (by decide),
   (exit_cleanup_spec cfgEx stEx "e" "bam" none).2.2.2.2.2.2 "other:S:echo:A" (by decide)⟩

/-- C9: whatever the constructor options are, the configured heartbeat
interval is strictly positive (absent, non-numeric, zero and negative
`heartbeat` options all fall back to the system default), hence the
timer period (`heartbeat * 1000` ms) and the TTL `heartbeat * 2`
written by `_resetServiceScore` are strictly positive, and the
substituted value is exactly the default. -/
theorem constructor_heartbeat_positive (optPfx : Option String) (ohb : Option Int)
    (id name : String) (svcs : String → Option Handler) :
    0 < (mkServer optPfx ohb id svcs).heartbeat ∧
    0 < (mkServer optPfx ohb id svcs).heartbeat * 2 ∧
    0 < (mkServer optPfx ohb id svcs).heartbeat * 1000 ∧
    (ohb = none → (mkServer optPfx ohb id svcs).heartbeat = defineHeartbeat) ∧
    (∀ v, ohb = some v → v ≤ 0 →
        (mkServer optPfx ohb id svcs).heartbeat = defineHeartbeat) ∧
    resetServiceScore (mkServer optPfx ohb id svcs) name =
      [Effect.setex (key (mkServer optPfx ohb id svcs).pfx ["S", name, id])
        (some ((mkServer optPfx ohb id svcs).heartbeat * 2)) 0] := by
  have hpos : 0 < (mkServer optPfx ohb id svcs).heartbeat := by
    show 0 < normalizeHeartbeat ohb
    cases ohb with
    | none => decide
    | some v =>
      simp only [normalizeHeartbeat]
      by_cases hv : 0 < v
      · rw [if_pos hv]; exact hv
      · rw [if_neg hv]; decide
  refine ⟨hpos, by omega, by omega, ?_, ?_, rfl⟩
  · intro h
    subst h
    rfl
  · intro v hv hle
    subst hv
    show normalizeHeartbeat (some v) = defineHeartbeat
    simp only [normalizeHeartbeat]
    rw [if_neg (by omega)]

/-- Witness for C9: a negative `heartbeat` option is replaced by the
positive default. -/
theorem constructor_heartbeat_positive_witness :
    0 < (mkServer none (some (-3)) "A" (fun _ => none)).heartbeat ∧
    (mkServer none (some (-3)) "A" (fun _ => none)).heartbeat = defineHeartbeat :=
  ⟨(constructor_heartbeat_positive none (some (-3)) "A" "svc" (fun _ => none)).1,
   (constructor_heartbeat_positive none (some (-3)) "A" "svc"
      (fun _ => none)).2.2.2.2.1 (-3) rfl (by decide)⟩

/-- C10 counterexample: node with prefix `a` and id `n1`.  The key
`a:b:S:x:n1` is built by the key function under the DIFFERENT prefix
`a:b`, yet it matches the exit pattern `a:*n1*` and is deleted by a
successful `exit()` — so a key containing the node's id under a
different prefix is not always left unchanged. -/
theorem exit_deletes_nested_prefix_key :
    ("a:b" : String) ≠ "a" ∧
    key "a:b" ["S", "x", "n1"] = "a:b:S:x:n1" ∧
    globMatch (exitPattern cfgN1) "a:b:S:x:n1" = true ∧
    (exitRun cfgN1 stNested none none).2.brokerKeys = [] := by
  refine ⟨by decide, by decide, by decide, ?_⟩
  decide

/-- C10 amended: the wildcard pattern `exit()` scans with is built
through the node's key function and therefore carries the configured
prefix: every key it matches starts with `prefix:` and contains the
node's id after it, and any key that does not start with `prefix:`
survives a successful `exit()` untouched.  (A key under a *different*
prefix that itself extends `prefix:` — such as `a:b:...` against
prefix `a` — still matches and is deleted.) -/
theorem exit_pattern_prefix_scoped (cfg : ServerCfg) (st : NodeRes) (k : String)
    (hp : cfg.pfx ≠ "") (hps : '*' ∉ cfg.pfx.data) (his : '*' ∉ cfg.id.data) :
    (globMatch (exitPattern cfg) k = true →
        (cfg.pfx ++ ":").data.isPrefixOf k.data = true ∧
        strContains cfg.id k = true) ∧
    ((cfg.pfx ++ ":").data.isPrefixOf k.data = false →
        k ∈ st.brokerKeys → k ∈ (exitRun cfg st none none).2.brokerKeys) := by
  have hdecomp : globMatch (exitPattern cfg) k = true →
      (cfg.pfx ++ ":").data.isPrefixOf k.data = true := by
    intro h
    obtain ⟨a, b, hk⟩ := globMatch_exitPattern_decompose cfg k hp hps his h
    rw [str_data_append, hk]
    have h2 := isPrefixOf_append (cfg.pfx.data ++ [':']) (a ++ (cfg.id.data ++ b))
    simp only [List.append_assoc, List.singleton_append] at h2
    exact h2
  constructor
  · intro h
    refine ⟨hdecomp h, ?_⟩
    obtain ⟨a, b, hk⟩ := globMatch_exitPattern_decompose cfg k hp hps his h
    unfold strContains
    rw [hk]
    have h3 := globStar_intro (fun s => cfg.id.data.isPrefixOf s)
      (cfg.pfx.data ++ ':' :: a) (cfg.id.data ++ b) (isPrefixOf_append _ _)
    simpa [List.append_assoc] using h3
  · intro hnp hmem
    have hg : globMatch (exitPattern cfg) k = false := by
      cases hgm : globMatch (exitPattern cfg) k with
      | false => rfl
      | true => rw [hdecomp hgm] at hnp; cases hnp
    rw [exitRun_none_none]
    simp only [List.mem_filter]
    exact ⟨hmem, by simp [hg]⟩

/-- Witness for C10 (amended): node `A`'s own heartbeat key
`clouds:S:echo:A` matches and decomposes, while the foreign-prefix key
`other:S:echo:A` survives node `A`'s successful exit. -/
theorem exit_pattern_prefix_scoped_witness :
    ((cfgEx.pfx ++ ":").data.isPrefixOf ("clouds:S:echo:A" : String).data = true ∧
      strContains cfgEx.id "clouds:S:echo:A" = true) ∧
    "other:S:echo:A" ∈ (exitRun cfgEx stEx none none).2.brokerKeys :=
  ⟨(exit_pattern_prefix_scoped cfgEx stEx "clouds:S:echo:A"
      (by decide) (by decide) (by decide)).1 (by decide),
   (exit_pattern_prefix_scoped cfgEx stEx "other:S:echo:A"
      (by decide) (by decide) (by decide)).2 (by decide) (by decide)⟩

end NodeCloud
